import Mathlib

/-!
Verification of the Salus iT600 / IntesisHome climate integration
(`homeassistant/components/it600/`).

The development shallowly embeds the entity class `IntesisAC` from
`climate.py` and the zeroconf step of `IT600FlowHandler` from
`config_flow.py`.  Mutable attributes of the Python object become fields
of an explicit state record; every vendor-client call and host-side
signal emitted by a method is collected in an output list so that the
order and multiplicity of side effects can be stated; Python `None` is
modelled with `Option`, and Python truthiness (`if x:`) is modelled by
explicit `truthy*` functions (in particular `None`, `0.0` and `""` are
falsy).  Temperatures are rationals, which faithfully represent every
setpoint the integration handles (half-degree steps).
-/

namespace IT600

/-- The two HVAC modes the integration supports
(`IH_HVAC_MODES = [HVAC_MODE_HEAT, HVAC_MODE_OFF]` in `climate.py`). -/
inductive HvacMode
  | heat
  | off
deriving DecidableEq, Repr

/-- `MAP_HVAC_MODE_TO_IH`: host mode to vendor mode string. -/
def mapHvacModeToIH : HvacMode → String
  | HvacMode.heat => "heat"
  | HvacMode.off => "off"

/-- Mutable attributes of an `IntesisAC` entity (`IntesisAC.__init__`).
`connected` mirrors `self._connected`, which starts as `None` and is the
tri-state connectivity flag (UNKNOWN / CONNECTED / DISCONNECTED). -/
structure EntityState where
  connected : Option Bool
  currentTemp : Option ℚ
  minTemp : Option ℚ
  maxTemp : Option ℚ
  targetTemp : Option ℚ
  power : Bool
  hvacModeField : Option HvacMode
deriving DecidableEq, Repr

/-- The state `IntesisAC.__init__` leaves the entity in (temperature and
mode fields `None`, `_connected = None`, `_power = False`). -/
def initialState : EntityState :=
  { connected := none
    currentTemp := none
    minTemp := none
    maxTemp := none
    targetTemp := none
    power := false
    hvacModeField := none }

/-- Python truthiness of an optional boolean (`self._connected` is
`None`, `True` or `False`; `None` and `False` are falsy). -/
def truthyOB : Option Bool → Bool
  | none => false
  | some b => b

/-- Python truthiness of an optional number (`None` and `0.0` are falsy). -/
def truthyQ : Option ℚ → Bool
  | none => false
  | some t => if t = 0 then false else true

/-- Python truthiness of an optional string (`None` and `""` are falsy). -/
def truthyOS : Option String → Bool
  | none => false
  | some s => if s = "" then false else true

/-- A call the entity makes on the vendor client (`self._controller`). -/
inductive Command
  | setPowerOn
  | setPowerOff
  | setMode (ihMode : String)
  | setTemperature (t : ℚ)
deriving DecidableEq, Repr

/-- Result of a command method: the updated entity state, the vendor
client calls in issue order, and how many times
`self.async_write_ha_state()` was called. -/
structure CmdResult where
  state : EntityState
  commands : List Command
  writes : Nat
deriving DecidableEq, Repr

/-- The Python `AttributeError` raised when an attribute that was never
assigned is read. -/
inductive AttributeFailure
  | deviceTypeMissing
deriving DecidableEq, Repr

/-- Lines 150-171 of `climate.py`: the statements of
`IntesisAC.async_set_hvac_mode` AFTER the debug-log call at line 149.
`isOn` is the value `self._controller.is_on(self._device_id)` returns.
Note that the cached-target branch is Python `if self._target_temp:`,
which is false for `None` and for `0.0`.  This code is unreachable in
the program as written (see `async_set_hvac_mode` below); it records
what the method would do past the log line. -/
def set_hvac_mode_after_log (s : EntityState) (isOn : Bool) (hvacMode : HvacMode) :
    CmdResult :=
  if hvacMode = HvacMode.off then
    { state := { s with power := false }
      commands := [Command.setPowerOff]
      writes := 1 }
  else
    let sc1 : EntityState × List Command :=
      if isOn then (s, []) else ({ s with power := true }, [Command.setPowerOn])
    let cmds2 := sc1.2 ++ [Command.setMode (mapHvacModeToIH hvacMode)]
    let cmds3 :=
      if truthyQ sc1.1.targetTemp then
        cmds2 ++ [Command.setTemperature (sc1.1.targetTemp.getD 0)]
      else cmds2
    { state := { sc1.1 with hvacModeField := some hvacMode }
      commands := cmds3
      writes := 1 }

/-- `IntesisAC.async_set_hvac_mode` (`climate.py` 147-171).  Line 149 is
`_LOGGER.debug("Setting %s to %s mode", self._device_type, hvac_mode)`;
`self._device_type` is never assigned by `IntesisAC.__init__` (lines
80-94) or anywhere else in the component, and Python evaluates the
arguments of a log call eagerly, so every invocation raises
`AttributeError` at line 149, before the OFF branch at line 150 and
before any vendor command.  `set_hvac_mode_after_log` above records the
unreachable remainder of the method. -/
def async_set_hvac_mode (s : EntityState) (isOn : Bool) (hvacMode : HvacMode) :
    Except AttributeFailure CmdResult :=
  Except.error AttributeFailure.deviceTypeMissing

/-- Lines 139-145 of `climate.py`: the part of `async_set_temperature`
after the optional `async_set_hvac_mode` call.  `r1` carries the state,
commands and writes accumulated so far.  The guard is Python
`if temperature:`, false for `None` and `0.0`. -/
def set_temperature_after_mode (r1 : CmdResult) (temperature : Option ℚ) :
    CmdResult :=
  let r2 :=
    if truthyQ temperature then
      { state := { r1.state with targetTemp := temperature }
        commands := r1.commands ++ [Command.setTemperature (temperature.getD 0)]
        writes := r1.writes }
    else r1
  { r2 with writes := r2.writes + 1 }

/-- `IntesisAC.async_set_temperature` (`climate.py` 131-145).
`temperature` and `hvacMode` are the `ATTR_TEMPERATURE` and
`ATTR_HVAC_MODE` entries of `kwargs` (`None` when absent); both guards
are Python truthiness tests.  When `hvac_mode` is passed (truthy), line
137 awaits `async_set_hvac_mode`, whose `AttributeError` propagates out
of this method too. -/
def async_set_temperature (s : EntityState) (isOn : Bool)
    (temperature : Option ℚ) (hvacMode : Option HvacMode) :
    Except AttributeFailure CmdResult :=
  match hvacMode with
  | some m =>
    match async_set_hvac_mode s isOn m with
    | Except.error e => Except.error e
    | Except.ok r1 => Except.ok (set_temperature_after_mode r1 temperature)
  | none =>
    Except.ok
      (set_temperature_after_mode { state := s, commands := [], writes := 0 }
        temperature)

/-- Result of `IntesisAC.async_update_callback`: the updated state, the
delays (in seconds) of the `async_call_later` reconnect timers it
scheduled, and how many times it called
`self.async_schedule_update_ha_state(True)`. -/
structure CallbackResult where
  state : EntityState
  scheduledDelays : List Nat
  updates : Nat
deriving DecidableEq, Repr

/-- `IntesisAC.async_update_callback` (`climate.py` 201-227).
`isConnected` is the value of `self._controller.is_connected` during the
call; `rand` is the value `randrange(10)` returned (so the caller ranges
it over `0 ≤ rand < 10`); `deviceId` is the optional argument and
`selfDeviceId` is `self._device_id`.  The reconnect delay is
`reconnect_minutes * 60` with `reconnect_minutes = 1 + rand`. -/
def async_update_callback (s : EntityState) (isConnected : Bool) (rand : Nat)
    (deviceId : Option String) (selfDeviceId : String) : CallbackResult :=
  let sd1 : EntityState × List Nat :=
    if !isConnected && truthyOB s.connected then
      ({ s with connected := some false }, [(1 + rand) * 60])
    else (s, [])
  let s2 :=
    if isConnected && !truthyOB sd1.1.connected then
      { sd1.1 with connected := some true }
    else sd1.1
  let updates :=
    if truthyOS deviceId = false ∨ deviceId = some selfDeviceId then 1 else 0
  { state := s2, scheduledDelays := sd1.2, updates := updates }

/-- A sequence of update-callback invocations: each list entry gives the
client connectivity observed, the `randrange(10)` value and the
`device_id` argument of one invocation.  Returns the final entity state
and the total number of reconnect timers scheduled. -/
def runCallbacks (selfDeviceId : String) (s : EntityState) :
    List (Bool × Nat × Option String) → EntityState × Nat
  | [] => (s, 0)
  | obs :: rest =>
    let res := async_update_callback s obs.1 obs.2.1 obs.2.2 selfDeviceId
    let tail := runCallbacks selfDeviceId res.state rest
    (tail.1, res.scheduledDelays.length + tail.2)

/-- `IntesisAC.hvac_mode` property (`climate.py` 259-264). -/
def hvac_mode (s : EntityState) : Option HvacMode :=
  if s.power then s.hvacModeField else some HvacMode.off

/-- `IntesisAC.available` property (`climate.py` 249-252):
`self._connected or self._connected is None`. -/
def available (s : EntityState) : Bool :=
  truthyOB s.connected || s.connected.isNone

/-- Exceptions the `pyintesishome` client may raise; `climate.py`
imports exactly these two (`IHAuthenticationError`, `IHConnectionError`). -/
inductive PyException
  | ihConnectionError
  | ihAuthenticationError
deriving DecidableEq, Repr

/-- The calls `IntesisAC.async_added_to_hass` makes on the vendor client. -/
inductive AttachAction
  | addUpdateCallback
  | connect
deriving DecidableEq, Repr

/-- Result of `async_added_to_hass`: vendor-client calls in order,
whether `_LOGGER.error` ran, the exception that escaped the method (if
any), and the entity state afterwards. -/
structure AttachResult where
  actions : List AttachAction
  logged : Bool
  raised : Option PyException
  state : EntityState
deriving DecidableEq, Repr

/-- `IntesisAC.async_added_to_hass` (`climate.py` 96-103).
`connectOutcome` is what `self._controller.connect()` did: `none` for
success, `some e` when it raised `e`.  The method registers the update
callback first, then connects; its `try` block catches only
`IHConnectionError` and logs it, so any other exception escapes.  It
never touches `self._connected`. -/
def async_added_to_hass (s : EntityState) (connectOutcome : Option PyException) :
    AttachResult :=
  match connectOutcome with
  | none =>
    { actions := [AttachAction.addUpdateCallback, AttachAction.connect]
      logged := false
      raised := none
      state := s }
  | some PyException.ihConnectionError =>
    { actions := [AttachAction.addUpdateCallback, AttachAction.connect]
      logged := true
      raised := none
      state := s }
  | some e =>
    { actions := [AttachAction.addUpdateCallback, AttachAction.connect]
      logged := false
      raised := some e
      state := s }

/-- Outcome of `IT600FlowHandler.async_step_zeroconf`. -/
inductive FlowResult
  | abort (reason : String)
  | showConfirmDialog (serialNumber : String)
deriving DecidableEq, Repr

/-- The zeroconf discovery payload as the flow step reads it: only its
`name` entry matters (`user_input.get("name")`, `None` when absent). -/
structure ZeroconfInput where
  name : Option String
deriving DecidableEq, Repr

/-- Python `str.startswith`, on character lists. -/
def startsWithChars : List Char → List Char → Bool
  | _, [] => true
  | [], _ :: _ => false
  | c :: cs, d :: ds => if c = d then startsWithChars cs ds else false

/-- Python `str.startswith` on strings. -/
def pyStartswith (s pat : String) : Bool :=
  startsWithChars s.toList pat.toList

/-- Python `str.lstrip(chars)`: removes the longest run of leading
characters that belong to the character SET `chars` (not the leading
occurrence of `chars` as a substring). -/
def pyLstrip (s chars : String) : String :=
  String.mk (s.toList.dropWhile (fun c => c ∈ chars.toList))

/-- `IT600FlowHandler.async_step_zeroconf` (`config_flow.py` 65-92).
`configuredIds` holds the unique ids of entries already configured
(`self._abort_if_unique_id_configured`).  On success the serial number
recorded as unique id (and shown in the confirm dialog) is
`user_input["name"].lstrip("Gateway_")`. -/
def async_step_zeroconf (configuredIds : List String)
    (userInput : Option ZeroconfInput) : FlowResult :=
  match userInput with
  | none => FlowResult.abort "connection_error"
  | some input =>
    if !truthyOS input.name || !pyStartswith (input.name.getD "") "Gateway_" then
      FlowResult.abort "not_gateway"
    else
      let mac := pyLstrip (input.name.getD "") "Gateway_"
      if mac ∈ configuredIds then FlowResult.abort "already_configured"
      else FlowResult.showConfirmDialog mac

/-- An entity whose cached connectivity is CONNECTED. -/
def stateConnected : EntityState := { initialState with connected := some true }

/-- An entity that is off and has the target temperature `22.0` cached
(the spec scenario for `setMode(HEAT)`). -/
def stateOffTarget22 : EntityState := { initialState with targetTemp := some 22 }

/-- The spec scenario state: cached target `20.0`, power on, mode HEAT. -/
def stateScenario : EntityState :=
  { initialState with
      targetTemp := some 20
      power := true
      hvacModeField := some HvacMode.heat }

/-- An entity whose power flag is false but whose cached mode is HEAT. -/
def statePowerOffHeat : EntityState :=
  { initialState with hvacModeField := some HvacMode.heat }

/-- When the cached connectivity is DISCONNECTED and the client is still
disconnected, an update callback changes nothing and schedules nothing:
`not is_connected and self._connected` is false because `False` is
falsy, and the restore branch needs `is_connected`. -/
theorem callback_disconnected_noop (s : EntityState) (r : Nat) (d : Option String)
    (id : String) (h : s.connected = some false) :
    (async_update_callback s false r d id).state = s ∧
      (async_update_callback s false r d id).scheduledDelays = [] := by
  simp [async_update_callback, h, truthyOB]

/-- While the cached connectivity stays DISCONNECTED, a run of update
callbacks that all observe the client disconnected schedules no
reconnect timer. -/
theorem runCallbacks_disconnected (id : String)
    (obs : List (Bool × Nat × Option String)) :
    ∀ s : EntityState, s.connected = some false → (∀ x ∈ obs, x.1 = false) →
      (runCallbacks id s obs).2 = 0 := by
  induction obs with
  | nil => intro s _ _; simp [runCallbacks]
  | cons o rest ih =>
    intro s h hobs
    obtain ⟨c, r, d⟩ := o
    have hc : c = false := hobs (c, r, d) (List.mem_cons_self _ _)
    subst hc
    have hstep := callback_disconnected_noop s r d id h
    have htail := ih (async_update_callback s false r d id).state
      (by rw [hstep.1]; exact h)
      (fun x hx => hobs x (List.mem_cons_of_mem _ hx))
    simp [runCallbacks, hstep.2, htail]

/-- C1 (counterexample): the reconnect delay is not a fixed 1-minute
floor plus a 1-10 minute random part.  When `randrange(10)` returns `0`
the scheduled delay is 60 seconds, which `(1 + u) * 60` cannot reach for
any `u` between 1 and 10. -/
theorem reconnect_delay_not_floor_plus_one_to_ten :
    ¬ ∃ u : Nat, 1 ≤ u ∧ u ≤ 10 ∧
      (async_update_callback stateConnected false 0 none "dev").scheduledDelays
        = [(1 + u) * 60] := by
  rintro ⟨u, h1, _, h3⟩
  have h4 : (1 + 0) * 60 = (1 + u) * 60 := by
    have h5 : (async_update_callback stateConnected false 0 none "dev").scheduledDelays
        = [(1 + 0) * 60] := by
      simp [async_update_callback, stateConnected, initialState, truthyOB]
    rw [h5] at h3
    exact List.head_eq_of_cons_eq h3
  omega

/-- C1 (amended): on a CONNECTED to DISCONNECTED transition the single
scheduled reconnect delay is `(1 + r) * 60` seconds, where `r` is the
value `randrange(10)` returned (`0 ≤ r < 10`); so the delay is a fixed
1-minute floor plus a uniformly chosen 0-9 extra minutes, and for every
value of the random source it lies in the inclusive range [60, 600]
(hence also within [60, 660]). -/
theorem reconnect_delay_formula (s : EntityState) (r : Nat) (d : Option String)
    (id : String) (hr : r < 10) (hc : s.connected = some true) :
    (async_update_callback s false r d id).scheduledDelays = [(1 + r) * 60] ∧
      60 ≤ (1 + r) * 60 ∧ (1 + r) * 60 ≤ 600 ∧ (1 + r) * 60 ≤ 660 := by
  refine ⟨?_, by omega, by omega, by omega⟩
  simp [async_update_callback, hc, truthyOB]

/-- Witness for the amended C1, at the largest random value `r = 9`. -/
theorem reconnect_delay_formula_witness :
    (async_update_callback stateConnected false 9 none "dev").scheduledDelays
        = [(1 + 9) * 60] ∧
      60 ≤ (1 + 9) * 60 ∧ (1 + 9) * 60 ≤ 600 ∧ (1 + 9) * 60 ≤ 660 :=
  reconnect_delay_formula stateConnected 9 none "dev" (by omega) rfl

/-- C2: starting from cached connectivity CONNECTED, a sequence of
update callbacks that all observe the client disconnected schedules
exactly one reconnect: the first invocation (the transition) schedules
it, and every later invocation schedules nothing. -/
theorem reconnect_scheduled_once_per_transition (id : String) (s : EntityState)
    (r : Nat) (d : Option String) (obs : List (Bool × Nat × Option String))
    (hc : s.connected = some true) (hobs : ∀ x ∈ obs, x.1 = false) :
    (runCallbacks id s ((false, r, d) :: obs)).2 = 1 := by
  have hstep : (async_update_callback s false r d id).state.connected = some false ∧
      (async_update_callback s false r d id).scheduledDelays = [(1 + r) * 60] := by
    simp [async_update_callback, hc, truthyOB]
  have htail := runCallbacks_disconnected id obs
    (async_update_callback s false r d id).state hstep.1 hobs
  simp [runCallbacks, hstep.2, htail]

/-- Witness for C2: a transition followed by two further disconnected
callbacks schedules exactly one reconnect in total. -/
theorem reconnect_scheduled_once_per_transition_witness :
    (runCallbacks "dev" stateConnected
        ((false, 4, none) :: [(false, 0, none), (false, 7, some "dev")])).2 = 1 :=
  reconnect_scheduled_once_per_transition "dev" stateConnected 4 none
    [(false, 0, none), (false, 7, some "dev")] rfl (by decide)

/-- C10: a reconnect is only scheduled from a pre-state whose cached
connectivity is CONNECTED — whenever the cached connectivity is not
`some true` the callback schedules nothing; and when it is still
UNKNOWN (`None`) and the client is observed disconnected, it stays
UNKNOWN. -/
theorem reconnect_requires_connected_state (s : EntityState) (c : Bool) (r : Nat)
    (d : Option String) (id : String) (h : s.connected ≠ some true) :
    (async_update_callback s c r d id).scheduledDelays = [] ∧
      (s.connected = none → c = false →
        (async_update_callback s c r d id).state.connected = none) := by
  constructor
  · cases hc : s.connected with
    | none => cases c <;> simp [async_update_callback, hc, truthyOB]
    | some b =>
      cases b
      · cases c <;> simp [async_update_callback, hc, truthyOB]
      · exact absurd hc h
  · intro hn hcf
    subst hcf
    simp [async_update_callback, hn, truthyOB]

/-- Witness for C10: from the initial UNKNOWN state, a disconnected
observation schedules nothing and stays UNKNOWN. -/
theorem reconnect_requires_connected_state_witness :
    (async_update_callback initialState false 2 (some "x") "dev").scheduledDelays = [] ∧
      (async_update_callback initialState false 2 (some "x") "dev").state.connected
        = none := by
  have h := reconnect_requires_connected_state initialState false 2 (some "x") "dev"
    (by simp [initialState])
  exact ⟨h.1, h.2 rfl rfl⟩

/-- C3: at the spec scenario — device off, cached target 22.0 —
`setMode(HEAT)` raises `AttributeError` at `climate.py:149` (the debug
log reads `self._device_type`, which is never assigned) before issuing
any vendor command, so the claimed command sequence never happens.  Had
the method got past the log line, the remaining code (lines 150-171)
would have issued exactly the claimed sequence
[power-on, mode-set(HEAT), temperature-set(22.0)] with one re-render,
which is why the claim is taken as the intent and the dangling
attribute read as the bug. -/
theorem set_mode_heat_raises_attribute_error :
    async_set_hvac_mode stateOffTarget22 false HvacMode.heat
        = Except.error AttributeFailure.deviceTypeMissing ∧
      set_hvac_mode_after_log stateOffTarget22 false HvacMode.heat
        = { state :=
              { stateOffTarget22 with
                  power := true
                  hvacModeField := some HvacMode.heat }
            commands := [Command.setPowerOn, Command.setMode "heat",
              Command.setTemperature 22]
            writes := 1 } := by
  constructor
  · rfl
  · simp [set_hvac_mode_after_log, stateOffTarget22, initialState, truthyQ,
      mapHvacModeToIH]

/-- C4: `setMode(OFF)` also raises `AttributeError` at `climate.py:149`
before the OFF branch at line 150 runs, so the power-off command is
never issued and no re-render happens.  The unreachable remainder of
the method (lines 150-155) would have performed exactly what the claim
says: clear the power flag, issue one power-off command, request one
re-render, and return. -/
theorem set_mode_off_raises_attribute_error :
    async_set_hvac_mode initialState false HvacMode.off
        = Except.error AttributeFailure.deviceTypeMissing ∧
      set_hvac_mode_after_log initialState false HvacMode.off
        = { state := { initialState with power := false }
            commands := [Command.setPowerOff]
            writes := 1 } := by
  constructor
  · rfl
  · simp [set_hvac_mode_after_log]

/-- C5 (counterexample): `setTemperature(0.0)` — a finite numeric value
— issues no temperature-set command and leaves the cached target
unchanged, because Python `if temperature:` is false at `0.0`; only the
re-render still happens. -/
theorem set_temperature_zero_issues_no_command :
    async_set_temperature stateScenario true (some 0) none
      = Except.ok { state := stateScenario, commands := [], writes := 1 } := by
  simp [async_set_temperature, set_temperature_after_mode, truthyQ]

/-- C5 (amended): for every finite NONZERO numeric value `v`,
`setTemperature(v)` issues exactly one temperature-set(`v`) command,
sets the cached target to `v`, and requests exactly one re-render, with
no local range validation (the statement holds for every nonzero `v`,
however far outside the min/max bounds). -/
theorem set_temperature_nonzero_behavior (s : EntityState) (isOn : Bool)
    (v : ℚ) (hv : v ≠ 0) :
    async_set_temperature s isOn (some v) none
      = Except.ok
          { state := { s with targetTemp := some v }
            commands := [Command.setTemperature v]
            writes := 1 } := by
  simp [async_set_temperature, set_temperature_after_mode, truthyQ, hv]

/-- Witness for the amended C5, the spec scenario: target 20, power on,
mode HEAT, then `setTemperature(21.5)`. -/
theorem set_temperature_nonzero_behavior_witness :
    async_set_temperature stateScenario true (some (43 / 2)) none
      = Except.ok
          { state := { stateScenario with targetTemp := some (43 / 2) }
            commands := [Command.setTemperature (43 / 2)]
            writes := 1 } :=
  set_temperature_nonzero_behavior stateScenario true (43 / 2) (by norm_num)

/-- C6: whenever the cached power flag is false the `hvac_mode`
property reports OFF, whatever mode is stored in the cached mode
field. -/
theorem hvac_mode_reports_off_when_power_false (s : EntityState)
    (h : s.power = false) : hvac_mode s = some HvacMode.off := by
  simp [hvac_mode, h]

/-- Witness for C6: power off with cached mode HEAT still reads OFF. -/
theorem hvac_mode_reports_off_when_power_false_witness :
    hvac_mode statePowerOffHeat = some HvacMode.off :=
  hvac_mode_reports_off_when_power_false statePowerOffHeat rfl

/-- C7: the `available` property is true exactly when the cached
connectivity is CONNECTED (`some true`) or UNKNOWN (`none`), and false
exactly when it is DISCONNECTED (`some false`). -/
theorem available_iff_connected_or_unknown (s : EntityState) :
    (available s = true ↔ (s.connected = some true ∨ s.connected = none)) ∧
      (available s = false ↔ s.connected = some false) := by
  cases hc : s.connected with
  | none => simp [available, hc, truthyOB]
  | some b => cases b <;> simp [available, hc, truthyOB]

/-- C8: evaluating the zeroconf step on the advertised name
`"Gateway_ae01"` — whose remainder after the `"Gateway_"` marker is
`"ae01"` — records the serial `"01"`, because `str.lstrip("Gateway_")`
keeps stripping characters of the set {G,a,t,e,w,y,_} past the marker.
The recorded serial differs from the remainder the claim requires. -/
theorem zeroconf_lstrip_corrupts_serial :
    async_step_zeroconf [] (some ⟨some "Gateway_ae01"⟩)
        = FlowResult.showConfirmDialog "01" ∧
      "01" ≠ "ae01" := by
  constructor
  · rfl
  · decide

/-- C9 (counterexample): a failure of `connect()` other than
`IHConnectionError` — here `IHAuthenticationError`, which the same
module imports from the client library — is not caught by
`async_added_to_hass` and propagates past it. -/
theorem attach_does_not_absorb_authentication_error :
    (async_added_to_hass initialState (some PyException.ihAuthenticationError)).raised
      = some PyException.ihAuthenticationError := rfl

/-- C9 (amended): `attach()` registers the update callback before
opening the connection, and every `IHConnectionError` raised by
`connect()` is logged and does not propagate past `attach()`; the
entity state — in particular the cached connectivity — is left
untouched, so it remains UNKNOWN when it was UNKNOWN.  Other exception
types are not caught. -/
theorem attach_registers_then_connects_absorbs_connection_error
    (s : EntityState) (o : Option PyException)
    (h : o = none ∨ o = some PyException.ihConnectionError) :
    (async_added_to_hass s o).actions
        = [AttachAction.addUpdateCallback, AttachAction.connect] ∧
      (async_added_to_hass s o).raised = none ∧
      (async_added_to_hass s o).state = s ∧
      (o = some PyException.ihConnectionError →
        (async_added_to_hass s o).logged = true) := by
  rcases h with h | h <;> subst h <;> simp [async_added_to_hass]

/-- Witness for the amended C9: a connection failure at attach time is
logged, does not escape, and leaves connectivity UNKNOWN. -/
theorem attach_absorbs_connection_error_witness :
    (async_added_to_hass initialState (some PyException.ihConnectionError)).raised
        = none ∧
      (async_added_to_hass initialState (some PyException.ihConnectionError)).logged
        = true ∧
      (async_added_to_hass initialState (some PyException.ihConnectionError)).state.connected
        = none := by
  have h := attach_registers_then_connects_absorbs_connection_error initialState
    (some PyException.ihConnectionError) (Or.inr rfl)
  exact ⟨h.2.1, h.2.2.2 rfl, by rw [h.2.2.1]; rfl⟩

end IT600
